import Mathlib

/-!
Shallow embedding of the checkout payment protocol of the
algorand-checkout-dev-tool repository, together with proofs about it.

Sources embedded here:
- the standalone payment page (its `pay`, `connect`, `disconnect` and
  `updateTimeRemaining` functions and its mount hook),
- the payment-form component (`payCheckout`, structurally identical to `pay`),
- the `useAlgorand` composable (`connect`, `disconnect`, `switchNetwork`,
  `signAndSendTransactions`, `createAlgodClient`, the `NETWORKS` table),
- the timer lifecycles of the payment page, the payment-stats view and the
  exchange-rate view.

Bytes are modelled as `Nat` values below 256, machine 64-bit words as `Nat`
reduced modulo `2 ^ 64`.  Account addresses are modelled in their decoded
form, as the list of 32 public-key bytes; the empty list models the empty
account string of the TypeScript code.  Asynchronous collaborator calls
(node, wallet) are modelled as environment records of `Except` results that
are threaded through the state-transition functions.
-/

namespace AlgorandCheckout

/-! ## Big-endian byte encoding -/

/-- Big-endian byte encoding of `n` on `width` bytes (most significant
byte first), as produced for ABI length prefixes and `uint64` values. -/
def beBytes : Nat → Nat → List Nat
  | 0, _ => []
  | w + 1, n => beBytes w (n / 256) ++ [n % 256]

/-- UTF-8 bytes of a string, each byte as a `Nat`. -/
def strBytes (s : String) : List Nat :=
  s.toUTF8.toList.map (fun b => b.toNat)

/-! ## SHA-512/256

The repository derives ABI method selectors and application addresses
through the algosdk, whose hash is SHA-512/256.  The full function is
embedded here: 64-bit words are `Nat` values reduced modulo `2 ^ 64`.
-/

/-- Reduce to a 64-bit word. -/
def w64 (n : Nat) : Nat := n % (2 ^ 64)

/-- Bitwise complement on 64-bit words. -/
def not64 (x : Nat) : Nat := x ^^^ (2 ^ 64 - 1)

/-- Right rotation of a 64-bit word. -/
def rotr64 (x n : Nat) : Nat := w64 ((x >>> n) ||| (x <<< (64 - n)))

/-- SHA-512 choice function. -/
def shaCh (x y z : Nat) : Nat := (x &&& y) ^^^ (not64 x &&& z)

/-- SHA-512 majority function. -/
def shaMaj (x y z : Nat) : Nat := (x &&& y) ^^^ (x &&& z) ^^^ (y &&& z)

/-- SHA-512 big sigma 0. -/
def bigSigma0 (x : Nat) : Nat := rotr64 x 28 ^^^ rotr64 x 34 ^^^ rotr64 x 39

/-- SHA-512 big sigma 1. -/
def bigSigma1 (x : Nat) : Nat := rotr64 x 14 ^^^ rotr64 x 18 ^^^ rotr64 x 41

/-- SHA-512 small sigma 0. -/
def smallSigma0 (x : Nat) : Nat := rotr64 x 1 ^^^ rotr64 x 8 ^^^ (x >>> 7)

/-- SHA-512 small sigma 1. -/
def smallSigma1 (x : Nat) : Nat := rotr64 x 19 ^^^ rotr64 x 61 ^^^ (x >>> 6)

/-- The 80 SHA-512 round constants (the first 64 bits of the fractional
parts of the cube roots of the first 80 primes), written in decimal. -/
def shaK : List Nat := [
  4794697086780616226, 8158064640168781261, 13096744586834688815,
  16840607885511220156, 4131703408338449720, 6480981068601479193,
  10538285296894168987, 12329834152419229976, 15566598209576043074,
  1334009975649890238, 2608012711638119052, 6128411473006802146,
  8268148722764581231, 9286055187155687089, 11230858885718282805,
  13951009754708518548, 16472876342353939154, 17275323862435702243,
  1135362057144423861, 2597628984639134821, 3308224258029322869,
  5365058923640841347, 6679025012923562964, 8573033837759648693,
  10970295158949994411, 12119686244451234320, 12683024718118986047,
  13788192230050041572, 14330467153632333762, 15395433587784984357,
  489312712824947311, 1452737877330783856, 2861767655752347644,
  3322285676063803686, 5560940570517711597, 5996557281743188959,
  7280758554555802590, 8532644243296465576, 9350256976987008742,
  10552545826968843579, 11727347734174303076, 12113106623233404929,
  14000437183269869457, 14369950271660146224, 15101387698204529176,
  15463397548674623760, 17586052441742319658, 1182934255886127544,
  1847814050463011016, 2177327727835720531, 2830643537854262169,
  3796741975233480872, 4115178125766777443, 5681478168544905931,
  6601373596472566643, 7507060721942968483, 8399075790359081724,
  8693463985226723168, 9568029438360202098, 10144078919501101548,
  10430055236837252648, 11840083180663258601, 13761210420658862357,
  14299343276471374635, 14566680578165727644, 15097957966210449927,
  16922976911328602910, 17689382322260857208, 500013540394364858,
  748580250866718886, 1242879168328830382, 1977374033974150939,
  2944078676154940804, 3659926193048069267, 4368137639120453308,
  4836135668995329356, 5532061633213252278, 6448918945643986474,
  6902733635092675308, 7801388544844847127]

/-- Initial hash state of SHA-512/256 (distinct from the plain SHA-512
initial state), written in decimal. -/
def shaIV : List Nat := [
  2463787394917988140, 11481187982095705282, 2563595384472711505,
  10824532655140301501, 10819967247969091555, 13717434660681038226,
  3098927326965381290, 1060366662362279074]

/-- Split a byte list into 128-byte blocks. -/
def toBlocks (l : List Nat) : List (List Nat) :=
  if h : l = [] then [] else l.take 128 :: toBlocks (l.drop 128)
termination_by l.length
decreasing_by
  have hl : 0 < l.length := List.length_pos.mpr h
  simp only [List.length_drop]
  omega

/-- Read a big-endian 64-bit word out of a byte list. -/
def wordOfBytes (bs : List Nat) : Nat :=
  bs.foldl (fun acc b => acc * 256 + b) 0

/-- Split a byte list into big-endian 64-bit words. -/
def toWords (l : List Nat) : List Nat :=
  if h : l = [] then [] else wordOfBytes (l.take 8) :: toWords (l.drop 8)
termination_by l.length
decreasing_by
  have hl : 0 < l.length := List.length_pos.mpr h
  simp only [List.length_drop]
  omega

/-- SHA-512 padding: append the 0x80 marker, zero bytes, and the message
bit length on 16 bytes, reaching a multiple of the 128-byte block size. -/
def padMessage (msg : List Nat) : List Nat :=
  let padZeros := (128 - (msg.length + 17) % 128) % 128
  msg ++ [0x80] ++ List.replicate padZeros 0 ++ beBytes 16 (8 * msg.length)

/-- Append the next word of the SHA-512 message schedule. -/
def scheduleStep (w : List Nat) : List Nat :=
  let n := w.length
  let x := w64 (smallSigma1 (w.getD (n - 2) 0) + w.getD (n - 7) 0 +
    smallSigma0 (w.getD (n - 15) 0) + w.getD (n - 16) 0)
  w ++ [x]

/-- Iterate the schedule extension a given number of times. -/
def extendSchedule : Nat → List Nat → List Nat
  | 0, w => w
  | t + 1, w => extendSchedule t (scheduleStep w)

/-- Working state of the SHA-512 compression loop. -/
structure ShaState where
  a : Nat
  b : Nat
  c : Nat
  d : Nat
  e : Nat
  f : Nat
  g : Nat
  h : Nat

/-- One SHA-512 round, consuming a round constant and a schedule word. -/
def shaRound (st : ShaState) (kw : Nat × Nat) : ShaState :=
  let t1 := w64 (st.h + bigSigma1 st.e + shaCh st.e st.f st.g + kw.1 + kw.2)
  let t2 := w64 (bigSigma0 st.a + shaMaj st.a st.b st.c)
  { a := w64 (t1 + t2), b := st.a, c := st.b, d := st.c,
    e := w64 (st.d + t1), f := st.e, g := st.f, h := st.g }

/-- Compress one 128-byte block into the running 8-word hash state. -/
def compressBlock (hs : List Nat) (block : List Nat) : List Nat :=
  let w := extendSchedule 64 (toWords block)
  let st0 : ShaState :=
    { a := hs.getD 0 0, b := hs.getD 1 0, c := hs.getD 2 0, d := hs.getD 3 0,
      e := hs.getD 4 0, f := hs.getD 5 0, g := hs.getD 6 0, h := hs.getD 7 0 }
  let st := (shaK.zip w).foldl shaRound st0
  [w64 (hs.getD 0 0 + st.a), w64 (hs.getD 1 0 + st.b),
   w64 (hs.getD 2 0 + st.c), w64 (hs.getD 3 0 + st.d),
   w64 (hs.getD 4 0 + st.e), w64 (hs.getD 5 0 + st.f),
   w64 (hs.getD 6 0 + st.g), w64 (hs.getD 7 0 + st.h)]

/-- SHA-512/256 digest of a byte list: the first 256 bits of the SHA-512
computation started from the SHA-512/256 initial state. -/
def sha512t256 (msg : List Nat) : List Nat :=
  let hs := (toBlocks (padMessage msg)).foldl compressBlock shaIV
  ((hs.take 4).map (beBytes 8)).flatten

/-! ## Addresses and the binary argument encoder

An account address is modelled in decoded form, as its list of 32
public-key bytes.  The base32 string serialization used on the wire is a
bijective rendering of these bytes and is abstracted away; the empty list
models the empty account string (the falsy value of the TypeScript code).
-/

/-- An account address: the 32 public-key bytes. -/
abbrev Address := List Nat

/-- The application address derivation of the algosdk
(`getApplicationAddress`): the SHA-512/256 digest of the prefix `appID`
followed by the application id as 8 big-endian bytes.  A pure function of
the id, with no network call. -/
def getApplicationAddress (appId : Nat) : Address :=
  sha512t256 (strBytes "appID" ++ beBytes 8 appId)

/-- ABI encoding of a `string` value: a 2-byte big-endian length prefix
followed by the UTF-8 bytes. -/
def encodeAbiString (s : String) : List Nat :=
  beBytes 2 (strBytes s).length ++ strBytes s

/-- ABI encoding of a `uint64` value: 8 bytes, big-endian. -/
def encodeUint64 (n : Nat) : List Nat := beBytes 8 n

/-- ABI encoding of an `address` value: its raw 32 bytes. -/
def encodeAbiAddress (a : Address) : List Nat := a

/-- An ABI method description, as passed to `algosdk.ABIMethod`: a name,
the ordered argument type names and the return type name. -/
structure AbiMethodSpec where
  name : String
  argTypes : List String
  returns : String

/-- The canonical method-signature string of an ABI method: the name, the
parenthesized comma-separated argument types, and the return type. -/
def methodSignature (m : AbiMethodSpec) : String :=
  m.name ++ "(" ++ String.intercalate "," m.argTypes ++ ")" ++ m.returns

/-- The 4-byte method selector (`ABIMethod.getSelector`): the first 4 bytes
of the SHA-512/256 digest of the method-signature string. -/
def getSelector (m : AbiMethodSpec) : List Nat :=
  (sha512t256 (strBytes (methodSignature m))).take 4

/-- The ABI method the payment views invoke, from the `ABIMethod`
construction in `pay` and `payCheckout` (the first argument is the grouped
asset transfer, passed by reference rather than encoded). -/
def payCheckoutMethod : AbiMethodSpec :=
  { name := "payCheckout",
    argTypes := ["axfer", "string", "address", "string", "uint64", "string"],
    returns := "void" }

/-! ## Transactions and the transaction builder -/

/-- The fee and round parameters fetched from the node
(`algodClient.getTransactionParams`). -/
structure SuggestedParams where
  fee : Nat
  minFee : Nat
  flatFee : Bool
  firstValid : Nat
  lastValid : Nat
  genesisId : String
deriving DecidableEq, Repr

/-- The application on-completion action.  The payment views always pass
`NoOpOC`. -/
inductive OnComplete
  | noOp
  | optIn
  | closeOut
  | clearState
  | updateApplication
  | deleteApplication
deriving DecidableEq, Repr

/-- Fields of an asset-transfer transaction, as assembled by
`makeAssetTransferTxnWithSuggestedParamsFromObject`.  The `group` field is
empty until a group identifier is assigned. -/
structure AssetTransferFields where
  sender : Address
  receiver : Address
  assetIndex : Nat
  amount : Nat
  params : SuggestedParams
  group : Option (List Nat)
deriving DecidableEq, Repr

/-- Fields of an application-call transaction, as assembled by
`makeApplicationCallTxnFromObject`. -/
structure AppCallFields where
  sender : Address
  appIndex : Nat
  onComplete : OnComplete
  appArgs : List (List Nat)
  foreignAssets : List Nat
  accounts : List Address
  params : SuggestedParams
  group : Option (List Nat)
deriving DecidableEq, Repr

/-- An unsigned transaction: either of the two kinds the payment group
uses. -/
inductive Txn
  | axfer (t : AssetTransferFields)
  | appl (t : AppCallFields)
deriving DecidableEq, Repr

/-- The group field of a transaction. -/
def Txn.getGroup : Txn → Option (List Nat)
  | .axfer t => t.group
  | .appl t => t.group

/-- Write the group field of a transaction, leaving every other field as
it was. -/
def Txn.setGroup (g : Option (List Nat)) : Txn → Txn
  | .axfer t => .axfer { t with group := g }
  | .appl t => .appl { t with group := g }

/-- The fee/round parameters a transaction was built with. -/
def Txn.params : Txn → SuggestedParams
  | .axfer t => t.params
  | .appl t => t.params

/-- The fee carried by a transaction. -/
def Txn.fee (t : Txn) : Nat := t.params.fee

/-- The flat-fee marker carried by a transaction. -/
def Txn.flatFee (t : Txn) : Bool := t.params.flatFee

/-- Whether a transaction is a value (asset) transfer. -/
def Txn.isAxfer : Txn → Bool
  | .axfer _ => true
  | .appl _ => false

/-- Whether a transaction is a program (application) invocation. -/
def Txn.isAppl : Txn → Bool
  | .axfer _ => false
  | .appl _ => true

/-- Deterministic byte encoding of a transaction, used as input of the
group hash.  It models the canonical msgpack encoding the algosdk hashes
in `computeGroupID`; the exact msgpack byte layout is abstracted, the
encoding being a deterministic function of every transaction field. -/
def encodeTxnForGroup : Txn → List Nat
  | .axfer t =>
      strBytes "axfer" ++ t.sender ++ t.receiver ++ beBytes 8 t.assetIndex ++
      beBytes 8 t.amount ++ beBytes 8 t.params.fee ++
      beBytes 8 t.params.firstValid ++ beBytes 8 t.params.lastValid
  | .appl t =>
      strBytes "appl" ++ t.sender ++ beBytes 8 t.appIndex ++
      (t.appArgs.map (fun a => beBytes 2 a.length ++ a)).flatten ++
      (t.foreignAssets.map (beBytes 8)).flatten ++ t.accounts.flatten ++
      beBytes 8 t.params.fee ++ beBytes 8 t.params.firstValid ++
      beBytes 8 t.params.lastValid

/-- The group identifier of a transaction list (`algosdk.computeGroupID`):
the SHA-512/256 digest of the concatenated member encodings under the `TG`
domain prefix. -/
def computeGroupID (txns : List Txn) : List Nat :=
  sha512t256 (strBytes "TG" ++ (txns.map encodeTxnForGroup).flatten)

/-- `algosdk.assignGroupID`: compute the group identifier of the list and
write it into the group field of every member, after all other fields have
been finalized. -/
def assignGroupID (txns : List Txn) : List Txn :=
  let gid := computeGroupID txns
  txns.map (Txn.setGroup (some gid))

/-- A checkout record, from the `Checkout` interface of the payment page.
The TypeScript record carries `appId`, `assetId` and `amount` as decimal
strings that the payment code converts with `BigInt`; they are modelled
directly as the converted numbers.  `merchantName` and `note` are the
optional display fields, guarded in the code by `||` against a missing or
empty value. -/
structure Checkout where
  id : String
  appId : Nat
  merchantWallet : Address
  merchantName : Option String
  amount : Nat
  assetId : Nat
  note : Option String
  status : String
  expiresAt : Int
deriving DecidableEq, Repr

/-- Transaction A of a payment attempt: the asset transfer of the checkout
amount of the checkout asset from the payer to the application address,
built with the fetched parameters unmodified. -/
def buildAssetTxn (c : Checkout) (payer : Address) (sp : SuggestedParams) : Txn :=
  .axfer { sender := payer, receiver := getApplicationAddress c.appId,
           assetIndex := c.assetId, amount := c.amount,
           params := sp, group := none }

/-- Transaction B of a payment attempt: the NoOp application call carrying
the selector and the ABI-encoded checkout fields, with the checkout asset
as foreign asset, the merchant wallet as foreign account, and an explicit
flat fee of 2000 microAlgos. -/
def buildAppCallTxn (c : Checkout) (payer : Address) (sp : SuggestedParams) : Txn :=
  .appl { sender := payer, appIndex := c.appId, onComplete := .noOp,
          appArgs := [getSelector payCheckoutMethod,
                      encodeAbiString c.id,
                      encodeAbiAddress c.merchantWallet,
                      encodeAbiString (c.merchantName.getD ""),
                      encodeUint64 c.amount,
                      encodeAbiString (c.note.getD "")],
          foreignAssets := [c.assetId],
          accounts := [c.merchantWallet],
          params := { sp with fee := 2000, flatFee := true },
          group := none }

/-- The two-member payment group of one checkout payment attempt, in the
order the payment code submits it: the asset transfer first, then the
application call, with the shared group identifier assigned last. -/
def buildPaymentGroup (c : Checkout) (payer : Address) (sp : SuggestedParams) : List Txn :=
  assignGroupID [buildAssetTxn c payer sp, buildAppCallTxn c payer sp]

/-! ## The payment page state machine

The reactive state of the standalone payment page, and its `pay` and
`connect` handlers.  The awaited collaborator calls (parameter fetch,
wallet signature, raw submission, confirmation poll) are supplied as an
environment of `Except` results; any failing stage is caught by the single
catch block, which writes the message into the error indicator.
-/

/-- The JavaScript `||` fallback on strings: an empty (falsy) message is
replaced by the fallback text. -/
def orDefault (m fallback : String) : String :=
  if m = "" then fallback else m

/-- The reactive state of the payment page.  `submitCount` is a ghost
counter of how many times a signed group was handed to the node, used to
express duplicate payment attempts. -/
structure PayState where
  checkout : Checkout
  connectedAccount : Option Address
  loading : Bool
  paying : Bool
  error : Option String
  success : Option String
  submitCount : Nat
deriving DecidableEq, Repr

/-- The environment of one `pay` call: the outcome of each awaited
collaborator step.  `confirmedAfter` is the number of rounds after
submission at which the node first reports the transaction included,
`none` when it never does. -/
structure PayEnv where
  getParams : Except String SuggestedParams
  signTxns : List Txn → Except String (List (List Nat))
  sendRaw : List (List Nat) → Except String String
  confirmedAfter : Option Nat

/-- `algosdk.waitForConfirmation` with its round bound: poll for inclusion
for at most `waitRounds` newly observed rounds, failing once the bound
elapses without inclusion. -/
def waitForConfirmation (confirmedAfter : Option Nat) (waitRounds : Nat) :
    Except String Nat :=
  match confirmedAfter with
  | some k =>
      if k ≤ waitRounds then .ok k
      else .error ("Transaction not confirmed after " ++ toString waitRounds ++ " rounds")
  | none => .error ("Transaction not confirmed after " ++ toString waitRounds ++ " rounds")

/-- How one `pay` call returned.  The code produces only the first two
outcomes; `alreadyInProgress` exists solely to state the re-entrancy
rejection the specification describes, which no code path produces. -/
inductive PayOutcome
  | skippedNotConnected
  | finished
  | alreadyInProgress
deriving DecidableEq, Repr

/-- The `pay` handler of the payment page (and, with identical structure,
`payCheckout` of the payment-form component): guard on a connected
account, clear the indicators, fetch parameters, build and group the two
transactions, sign, submit, poll for confirmation with bound 4; on success
record the transaction id and set the local status to paid, on any failure
record the message; always clear `paying` at the end. -/
def pay (s : PayState) (env : PayEnv) : PayState × PayOutcome :=
  match s.connectedAccount with
  | none => (s, .skippedNotConnected)
  | some payer =>
    let s1 := { s with paying := true, error := none, success := none }
    match env.getParams with
    | .error msg =>
        ({ s1 with error := some (orDefault msg "Payment failed"), paying := false },
         .finished)
    | .ok sp =>
      let txns := buildPaymentGroup s.checkout payer sp
      match env.signTxns txns with
      | .error msg =>
          ({ s1 with error := some (orDefault msg "Payment failed"), paying := false },
           .finished)
      | .ok signed =>
        let s2 := { s1 with submitCount := s1.submitCount + 1 }
        match env.sendRaw signed with
        | .error msg =>
            ({ s2 with error := some (orDefault msg "Payment failed"), paying := false },
             .finished)
        | .ok txId =>
          match waitForConfirmation env.confirmedAfter 4 with
          | .error msg =>
              ({ s2 with error := some (orDefault msg "Payment failed"), paying := false },
               .finished)
          | .ok _ =>
              ({ s2 with success := some txId,
                         checkout := { s2.checkout with status := "paid" },
                         paying := false },
               .finished)

/-- Whether the Pay button accepts a click: the payment page renders it
only for a connected account and disables it while `paying` is set (the
payment-form component expresses the same predicate as
`!isConnected || paying` on a single button). -/
def payButtonEnabled (s : PayState) : Bool :=
  s.connectedAccount.isSome && !s.paying

/-- A click on the Pay button: runs `pay` when the button is enabled and
does nothing at all otherwise. -/
def clickPay (s : PayState) (env : PayEnv) : PayState :=
  if payButtonEnabled s then (pay s env).1 else s

/-- The `connect` handler of the payment page: set `loading`, clear the
error, always invoke the interactive wallet prompt, adopt the first
returned account when it is truthy; on failure, record the message unless
it is the cancellation sentinel `Connect cancelled`, which is silently
dropped; always clear `loading`.  The returned flag records that the
wallet prompt was invoked, which this handler does unconditionally. -/
def pageConnect (s : PayState) (result : Except String (List Address)) :
    PayState × Bool :=
  let s1 := { s with loading := true, error := none }
  match result with
  | .ok accounts =>
      let s2 :=
        match accounts.head? with
        | some a => if a.isEmpty then s1 else { s1 with connectedAccount := some a }
        | none => s1
      ({ s2 with loading := false }, true)
  | .error msg =>
      let s2 :=
        if msg = "Connect cancelled" then s1
        else { s1 with error := some (orDefault msg "Failed to connect wallet") }
      ({ s2 with loading := false }, true)

/-! ## The countdown tick of the payment page -/

/-- What one countdown tick produces: the remaining-time display string
and, when expired, the delay in milliseconds of the page reload it
schedules. -/
structure TickResult where
  display : String
  reloadDelayMs : Option Nat
deriving DecidableEq, Repr

/-- One `updateTimeRemaining` tick: with the difference between
`expiresAt` and the current time non-positive, show `Expired` and schedule
a single reload 1500 milliseconds later; otherwise show the remaining
whole minutes and seconds. -/
def updateTimeRemaining (expiresAtMs nowMs : Int) : TickResult :=
  let diff := expiresAtMs - nowMs
  if diff ≤ 0 then
    { display := "Expired", reloadDelayMs := some 1500 }
  else
    let d := diff.toNat
    { display := toString (d / 60000) ++ "m " ++ toString (d % 60000 / 1000) ++ "s",
      reloadDelayMs := none }

/-! ## View timer lifecycles

Each view with a periodic timer is modelled by the mount and teardown
effect it has on its interval handles.
-/

/-- The interval handles held by the payment page. -/
structure PaymentPageTimers where
  countdownInterval : Option Nat
deriving DecidableEq, Repr

/-- The payment page mount hook: for a pending checkout it starts the
per-second countdown interval (without retaining the handle). -/
def paymentPageOnMounted (status : String) (intervalId : Nat) : PaymentPageTimers :=
  if status = "pending" then { countdownInterval := some intervalId }
  else { countdownInterval := none }

/-- Teardown of the payment page: the component registers no unmount hook
and never calls `clearInterval`, so teardown cancels nothing. -/
def paymentPageTeardown (t : PaymentPageTimers) : PaymentPageTimers := t

/-- The state of the payment-stats view: the auto-refresh flag (initially
on) and the polling interval handle. -/
structure StatsState where
  autoRefresh : Bool
  refreshInterval : Option Nat
deriving DecidableEq, Repr

/-- `startAutoRefresh`: clear any previous interval, then start a new
one. -/
def statsStartAutoRefresh (s : StatsState) (newId : Nat) : StatsState :=
  { s with refreshInterval := some newId }

/-- `stopAutoRefresh`: clear the interval when one is set. -/
def statsStopAutoRefresh (s : StatsState) : StatsState :=
  { s with refreshInterval := none }

/-- The payment-stats mount hook: start polling when auto-refresh is
on. -/
def statsOnMounted (s : StatsState) (newId : Nat) : StatsState :=
  if s.autoRefresh then statsStartAutoRefresh s newId else s

/-- The payment-stats unmount hook: stop polling. -/
def statsOnUnmounted (s : StatsState) : StatsState :=
  statsStopAutoRefresh s

/-- The state of the exchange-rate view: the auto-refresh flag (initially
off) and the polling interval handle. -/
structure RatesState where
  autoRefresh : Bool
  refreshInterval : Option Nat
deriving DecidableEq, Repr

/-- The exchange-rate auto-refresh toggle: flip the flag, then either
start the interval or clear a running one. -/
def ratesToggleAutoRefresh (s : RatesState) (newId : Nat) : RatesState :=
  let s1 := { s with autoRefresh := !s.autoRefresh }
  if s1.autoRefresh then { s1 with refreshInterval := some newId }
  else
    match s1.refreshInterval with
    | some _ => { s1 with refreshInterval := none }
    | none => s1

/-- The exchange-rate unmount hook: clear the interval when one is
running. -/
def ratesOnUnmounted (s : RatesState) : RatesState :=
  match s.refreshInterval with
  | some _ => { s with refreshInterval := none }
  | none => s

/-! ## The useAlgorand composable

Shared singleton wallet and node-client state, with `connect`,
`disconnect` and `switchNetwork` as its mutators.
-/

/-- A network identifier. -/
inductive NetworkId
  | testnet
  | mainnet
deriving DecidableEq, Repr

/-- Node-connection parameters of one network. -/
structure NetworkConfig where
  name : String
  algodServer : String
  algodPort : String
  algodToken : String
deriving DecidableEq, Repr

/-- The network configuration registry, with the concrete entries of the
source. -/
def NETWORKS : NetworkId → NetworkConfig
  | .testnet =>
      { name := "TestNet", algodServer := "https://testnet-api.algonode.cloud",
        algodPort := "443", algodToken := "" }
  | .mainnet =>
      { name := "MainNet", algodServer := "https://mainnet-api.algonode.cloud",
        algodPort := "443", algodToken := "" }

/-- A node client, holding the connection parameters it was constructed
with. -/
structure AlgodClient where
  token : String
  server : String
  port : String
deriving DecidableEq, Repr

/-- `createAlgodClient`: construct a node client from the configuration of
the given network. -/
def createAlgodClient (network : NetworkId) : AlgodClient :=
  let config := NETWORKS network
  { token := config.algodToken, server := config.algodServer,
    port := config.algodPort }

/-- The shared state of the composable: the connected account, the active
network, the node client, the persisted network selection, and the
wallet-side session. -/
structure AlgorandState where
  connectedAccount : Option Address
  networkId : NetworkId
  algodClient : AlgodClient
  storedNetwork : Option NetworkId
  peraSessionActive : Bool
deriving DecidableEq, Repr

/-- Whether a wallet session is connected. -/
def isConnected (s : AlgorandState) : Bool :=
  s.connectedAccount.isSome

/-- `disconnect`: tear down the wallet session and clear the connected
account unconditionally. -/
def algorandDisconnect (s : AlgorandState) : AlgorandState :=
  { s with peraSessionActive := false, connectedAccount := none }

/-- `switchNetwork`: a no-op when the target equals the active network;
otherwise update the in-memory and persisted network identifiers, recreate
the node client for the new network, and disconnect the wallet when one is
connected. -/
def switchNetwork (s : AlgorandState) (network : NetworkId) : AlgorandState :=
  if network = s.networkId then s
  else
    let s1 := { s with networkId := network, storedNetwork := some network,
                       algodClient := createAlgodClient network }
    if s1.connectedAccount.isSome then algorandDisconnect s1 else s1

/-- The environment of one composable `connect` call: the results of the
silent session restoration and of the interactive prompt. -/
structure ConnectEnv where
  reconnectSession : Except String (List Address)
  connect : Except String (List Address)

/-- The result of one composable `connect` call: the new state, the value
returned or thrown to the caller, and whether the interactive wallet
prompt was invoked. -/
structure ConnectResult where
  state : AlgorandState
  outcome : Except String Unit
  prompted : Bool

/-- The composable `connect`: return immediately when an account is
already connected; otherwise try the silent session restoration and adopt
its first truthy account; otherwise invoke the interactive prompt, adopt
its first account, and rethrow any failure of the prompt to the caller. -/
def useAlgorandConnect (s : AlgorandState) (env : ConnectEnv) : ConnectResult :=
  match s.connectedAccount with
  | some _ => { state := s, outcome := .ok (), prompted := false }
  | none =>
    let interactive : ConnectResult :=
      match env.connect with
      | .ok accounts =>
          { state := { s with connectedAccount := accounts.head?,
                              peraSessionActive := true },
            outcome := .ok (), prompted := true }
      | .error msg => { state := s, outcome := .error msg, prompted := true }
    match env.reconnectSession with
    | .ok accounts =>
        match accounts.head? with
        | some a =>
            if a.isEmpty then interactive
            else { state := { s with connectedAccount := some a,
                                     peraSessionActive := true },
                   outcome := .ok (), prompted := false }
        | none => interactive
    | .error _ => interactive

/-! ## Sample data used by witnesses and counterexamples -/

/-- A sample payer account. -/
def sampleAddr : Address := List.replicate 32 7

/-- A second account, distinct from `sampleAddr`. -/
def otherAddr : Address := List.replicate 32 8

/-- A sample pending checkout, with the concrete field values of the
scenario of the specification. -/
def sampleCheckout : Checkout :=
  { id := "CHK-1", appId := 754674671, merchantWallet := List.replicate 32 9,
    merchantName := some "Shop", amount := 1000000, assetId := 10458941,
    note := none, status := "pending", expiresAt := 1800000 }

/-- Sample fetched parameters with the standard 1000 microAlgo minimum
fee. -/
def sampleParams : SuggestedParams :=
  { fee := 1000, minFee := 1000, flatFee := false, firstValid := 1,
    lastValid := 1001, genesisId := "testnet-v1.0" }

/-- Fetched parameters whose minimum fee is 1500 microAlgos. -/
def cexParams : SuggestedParams :=
  { fee := 1000, minFee := 1500, flatFee := false, firstValid := 1,
    lastValid := 1001, genesisId := "testnet-v1.0" }

/-- A default transaction used as the out-of-range fallback of list
indexing. -/
def dummyTxn : Txn :=
  Txn.axfer { sender := [], receiver := [], assetIndex := 0, amount := 0,
              params := { fee := 0, minFee := 0, flatFee := false, firstValid := 0,
                          lastValid := 0, genesisId := "" },
              group := none }

/-- The payment page state with a pending checkout, a connected account
and no attempt in flight. -/
def pendingState : PayState :=
  { checkout := sampleCheckout, connectedAccount := some sampleAddr,
    loading := false, paying := false, error := none, success := none,
    submitCount := 0 }

/-- The payment page state while a first `pay` call is suspended at an
await: `paying` is set. -/
def inFlightState : PayState := { pendingState with paying := true }

/-- An environment in which every collaborator step succeeds and the
transaction is included one round after submission. -/
def okEnv : PayEnv :=
  { getParams := .ok sampleParams, signTxns := fun _ => .ok [[1]],
    sendRaw := fun _ => .ok "TX123", confirmedAfter := some 1 }

/-- An environment in which the node never includes the transaction, so
the bounded 4-round confirmation poll elapses. -/
def timeoutEnv : PayEnv :=
  { getParams := .ok sampleParams, signTxns := fun _ => .ok [[1]],
    sendRaw := fun _ => .ok "TX123", confirmedAfter := none }

/-- A composable state with an active session on the test network. -/
def connectedSt : AlgorandState :=
  { connectedAccount := some sampleAddr, networkId := .testnet,
    algodClient := createAlgodClient .testnet, storedNetwork := none,
    peraSessionActive := true }

/-- A composable state with no session. -/
def disconnectedSt : AlgorandState :=
  { connectedAccount := none, networkId := .testnet,
    algodClient := createAlgodClient .testnet, storedNetwork := none,
    peraSessionActive := false }

/-- A connect environment with no restorable session and an interactive
prompt the user aborts. -/
def cancelEnv : ConnectEnv :=
  { reconnectSession := .error "no session", connect := .error "Connect cancelled" }

/-- A connect environment with no restorable session and an interactive
prompt that yields a fresh account. -/
def promptEnv : ConnectEnv :=
  { reconnectSession := .error "no session", connect := .ok [otherAddr] }

/-! ## Helper lemmas -/

/-- Writing the group field leaves it readable back unchanged. -/
theorem txn_getGroup_setGroup (g : Option (List Nat)) (t : Txn) :
    (Txn.setGroup g t).getGroup = g := by
  cases t <;> rfl

/-- The canonical signature string of the invoked ABI method. -/
theorem payCheckout_signature :
    methodSignature payCheckoutMethod =
      "payCheckout(axfer,string,address,string,uint64,string)void" := by
  decide

/-- A string that ends in the letter s never equals the string
`Expired`. -/
theorem append_s_ne_expired (x : String) : x ++ "s" ≠ "Expired" := by
  intro hcontra
  have hd : x.data ++ ['s'] = "Expired".data := by
    have hdata := congrArg String.data hcontra
    simpa [String.data_append] using hdata
  have hlast : (x.data ++ ['s']).getLast? = some 's' := by
    simp
  rw [hd] at hlast
  exact absurd hlast (by decide)

/-! ## Claim C1 -/

/-- C1 counterexample: the claim states that transaction B carries a flat
fee of exactly twice the minimum per-transaction fee supplied in the
fetched parameters.  With fetched parameters whose minimum fee is 1500
microAlgos, the built group carries the hardcoded fee of 2000 microAlgos
on transaction B, not 3000: the fee literal 2000 in the application-call
construction ignores the fetched minimum fee. -/
theorem buildPaymentGroup_fee_cex :
    cexParams.minFee = 1500 ∧
    ((buildPaymentGroup sampleCheckout sampleAddr cexParams).getD 1 dummyTxn).fee = 2000 ∧
    ¬ (((buildPaymentGroup sampleCheckout sampleAddr cexParams).getD 1 dummyTxn).fee
        = 2 * cexParams.minFee) :=
  ⟨rfl, rfl, by decide⟩

/-- C1 (amended): for every checkout payment attempt the constructed group
has exactly 2 members, the value transfer first and the program invocation
second; a shared group identifier is assigned to both members after all
other fields are finalized (the group field, empty until then, is set on
both to the same identifier); transaction B carries an explicit flat fee
of 2000 microAlgos, which equals twice the standard 1000 microAlgo minimum
fee but is independent of the fetched parameters; and transaction A
carries the supplied base fee parameters unmodified. -/
theorem buildPaymentGroup_spec (c : Checkout) (payer : Address) (sp : SuggestedParams) :
    ∃ gid,
      buildPaymentGroup c payer sp =
        [Txn.setGroup (some gid) (buildAssetTxn c payer sp),
         Txn.setGroup (some gid) (buildAppCallTxn c payer sp)] ∧
      (buildPaymentGroup c payer sp).length = 2 ∧
      ((buildPaymentGroup c payer sp).getD 0 dummyTxn).isAxfer = true ∧
      ((buildPaymentGroup c payer sp).getD 1 dummyTxn).isAppl = true ∧
      (∀ t ∈ buildPaymentGroup c payer sp, t.getGroup = some gid) ∧
      ((buildPaymentGroup c payer sp).getD 1 dummyTxn).fee = 2000 ∧
      ((buildPaymentGroup c payer sp).getD 1 dummyTxn).flatFee = true ∧
      ((buildPaymentGroup c payer sp).getD 0 dummyTxn).params = sp := by
  refine ⟨computeGroupID [buildAssetTxn c payer sp, buildAppCallTxn c payer sp],
    rfl, rfl, rfl, rfl, ?_, rfl, rfl, rfl⟩
  intro t ht
  simp only [buildPaymentGroup, assignGroupID, List.map, List.mem_cons,
    List.not_mem_nil, or_false] at ht
  rcases ht with rfl | rfl <;> exact txn_getGroup_setGroup _ _

/-! ## Claim C2 -/

/-- C2: for every checkout with a program id, transaction A is the asset
transfer of the checkout amount of the checkout asset from the payer to
the address derived from the program id, and transaction B is the NoOp
program invocation whose arguments are, in order, the 4-byte selector of
`payCheckout(axfer,string,address,string,uint64,string)void` (the first 4
bytes of the SHA-512/256 digest of that signature string), the checkout id
as an ABI string, the merchant address, the merchant name or the empty
string, the amount as an ABI uint64, and the note or the empty string,
with the checkout asset as foreign-asset reference and the merchant
address as foreign-account reference. -/
theorem buildPaymentGroup_encodes_checkout (c : Checkout) (payer : Address)
    (sp : SuggestedParams) :
    ∃ gid A B,
      buildPaymentGroup c payer sp = [Txn.axfer A, Txn.appl B] ∧
      A.sender = payer ∧
      A.receiver = getApplicationAddress c.appId ∧
      A.assetIndex = c.assetId ∧
      A.amount = c.amount ∧
      A.group = some gid ∧
      B.sender = payer ∧
      B.appIndex = c.appId ∧
      B.onComplete = OnComplete.noOp ∧
      B.appArgs = [getSelector payCheckoutMethod,
                   encodeAbiString c.id,
                   encodeAbiAddress c.merchantWallet,
                   encodeAbiString (c.merchantName.getD ""),
                   encodeUint64 c.amount,
                   encodeAbiString (c.note.getD "")] ∧
      B.appArgs.head? = some ((sha512t256 (strBytes
        "payCheckout(axfer,string,address,string,uint64,string)void")).take 4) ∧
      B.foreignAssets = [c.assetId] ∧
      B.accounts = [c.merchantWallet] ∧
      B.group = some gid := by
  refine ⟨computeGroupID [buildAssetTxn c payer sp, buildAppCallTxn c payer sp],
    _, _, rfl, rfl, rfl, rfl, rfl, rfl, rfl, rfl, rfl, rfl, ?_, rfl, rfl, rfl⟩
  simp [getSelector, payCheckout_signature]

/-! ## Claim C3 -/

/-- C3 counterexample: the claim states that a second `pay` call for the
same checkout while one is in flight is rejected with `AlreadyInProgress`
and produces no duplicate payment attempt.  Invoked directly on the state
of an in-flight attempt (`paying` set), `pay` performs no re-entrancy
check: it runs to completion rather than being rejected, and hands a
second signed group to the node, incrementing the submission counter. -/
theorem pay_reentrancy_cex :
    inFlightState.paying = true ∧
    (pay inFlightState okEnv).2 = PayOutcome.finished ∧
    ¬ ((pay inFlightState okEnv).2 = PayOutcome.alreadyInProgress ∧
       (pay inFlightState okEnv).1.submitCount = inFlightState.submitCount) ∧
    (pay inFlightState okEnv).1.submitCount = inFlightState.submitCount + 1 :=
  ⟨rfl, rfl, fun h => absurd h.1 (by decide), rfl⟩

/-- C3 (amended): the only re-entrancy guard is the user interface: while
a `pay` call is in flight the Pay button is disabled (`paying` is set), so
a click starts no second attempt and leaves the whole page state, the
in-flight attempt included, untouched.  `pay` itself has no guard and no
`AlreadyInProgress` rejection exists in the code, so a direct second
invocation would proceed (see the counterexample). -/
theorem clickPay_disabled_while_paying (s : PayState) (env : PayEnv)
    (hpaying : s.paying = true) : clickPay s env = s := by
  simp [clickPay, payButtonEnabled, hpaying]

/-- C3 witness: the amended claim at the concrete in-flight state. -/
theorem clickPay_disabled_while_paying_witness :
    inFlightState.paying = true ∧ clickPay inFlightState okEnv = inFlightState :=
  ⟨rfl, clickPay_disabled_while_paying inFlightState okEnv rfl⟩

/-! ## Claim C4 -/

/-- C4: every payment attempt that fails, the bounded 4-round confirmation
poll elapsing included, leaves the checkout record untouched (its status
in particular stays whatever it was, pending for a pending checkout) and
only sets the error indication, clears the success indication and resets
the in-flight flag. -/
theorem pay_failure_frame (s : PayState) (env : PayEnv) (payer : Address) (msg : String)
    (hconn : s.connectedAccount = some payer)
    (herr : (pay s env).1.error = some msg) :
    (pay s env).1.checkout = s.checkout ∧
    (pay s env).1.checkout.status = s.checkout.status ∧
    (pay s env).1.connectedAccount = s.connectedAccount ∧
    (pay s env).1.success = none ∧
    (pay s env).1.paying = false := by
  cases hps : env.getParams with
  | error m => simp [pay, hconn, hps]
  | ok sp =>
    cases hsg : env.signTxns (buildPaymentGroup s.checkout payer sp) with
    | error m => simp [pay, hconn, hps, hsg]
    | ok signed =>
      cases hsr : env.sendRaw signed with
      | error m => simp [pay, hconn, hps, hsg, hsr]
      | ok txid =>
        cases hwc : waitForConfirmation env.confirmedAfter 4 with
        | error m => simp [pay, hconn, hps, hsg, hsr, hwc]
        | ok r => simp [pay, hconn, hps, hsg, hsr, hwc] at herr

/-- C4 witness: the theorem at the pending state against a node that never
includes the transaction within the 4-round bound. -/
theorem pay_failure_frame_witness :
    pendingState.connectedAccount = some sampleAddr ∧
    (pay pendingState timeoutEnv).1.error =
      some "Transaction not confirmed after 4 rounds" ∧
    ((pay pendingState timeoutEnv).1.checkout = pendingState.checkout ∧
     (pay pendingState timeoutEnv).1.checkout.status = pendingState.checkout.status ∧
     (pay pendingState timeoutEnv).1.connectedAccount = pendingState.connectedAccount ∧
     (pay pendingState timeoutEnv).1.success = none ∧
     (pay pendingState timeoutEnv).1.paying = false) :=
  ⟨rfl, rfl,
   pay_failure_frame pendingState timeoutEnv sampleAddr
     "Transaction not confirmed after 4 rounds" rfl rfl⟩

/-! ## Claim C5 -/

/-- C5: a countdown tick shows the `Expired` display value exactly when
the current time has reached `expiresAt` — at or after that instant and
never before — and on exactly the expired ticks it schedules exactly one
reload of the checkout record, 1500 milliseconds (1.5 time units) later;
before expiry it shows the remaining minutes and seconds and schedules
nothing. -/
theorem updateTimeRemaining_expiry (e n : Int) :
    ((updateTimeRemaining e n).display = "Expired" ↔ e ≤ n) ∧
    (updateTimeRemaining e n).reloadDelayMs = (if e ≤ n then some 1500 else none) := by
  by_cases hle : e ≤ n
  · have hd : e - n ≤ 0 := by omega
    simp [updateTimeRemaining, hd, hle]
  · have hd : ¬ (e - n ≤ 0) := by omega
    simp only [updateTimeRemaining, hd, if_false, if_neg hle]
    refine ⟨⟨fun hx => absurd hx (append_s_ne_expired _), fun hx => absurd hx hle⟩, trivial⟩

/-! ## Claim C6 -/

/-- C6: switching to a different network identifier while a wallet session
is active disconnects the session — `isConnected` reads false immediately
after the switch — and replaces the node client with one constructed from
the new network's configuration entry. -/
theorem switchNetwork_disconnects (s : AlgorandState) (network : NetworkId)
    (a : Address) (hne : network ≠ s.networkId)
    (hconn : s.connectedAccount = some a) :
    isConnected (switchNetwork s network) = false ∧
    (switchNetwork s network).algodClient = createAlgodClient network ∧
    (switchNetwork s network).algodClient.server = (NETWORKS network).algodServer ∧
    (switchNetwork s network).algodClient.port = (NETWORKS network).algodPort ∧
    (switchNetwork s network).algodClient.token = (NETWORKS network).algodToken := by
  simp [switchNetwork, hne, hconn, isConnected, algorandDisconnect, createAlgodClient]

/-- C6 witness: the theorem at a connected test-network state switched to
the production network. -/
theorem switchNetwork_disconnects_witness :
    NetworkId.mainnet ≠ connectedSt.networkId ∧
    connectedSt.connectedAccount = some sampleAddr ∧
    (isConnected (switchNetwork connectedSt NetworkId.mainnet) = false ∧
     (switchNetwork connectedSt NetworkId.mainnet).algodClient =
       createAlgodClient NetworkId.mainnet ∧
     (switchNetwork connectedSt NetworkId.mainnet).algodClient.server =
       (NETWORKS NetworkId.mainnet).algodServer ∧
     (switchNetwork connectedSt NetworkId.mainnet).algodClient.port =
       (NETWORKS NetworkId.mainnet).algodPort ∧
     (switchNetwork connectedSt NetworkId.mainnet).algodClient.token =
       (NETWORKS NetworkId.mainnet).algodToken) :=
  ⟨by decide, rfl,
   switchNetwork_disconnects connectedSt NetworkId.mainnet sampleAddr (by decide) rfl⟩

/-! ## Claim C7 -/

/-- C7 counterexample: the claim states that every `connect` entry point
returns immediately, without re-prompting the wallet and with the
connected account unchanged, whenever an account is already connected.
The payment-page `connect` has no such guard: called on the connected
state it invokes the interactive wallet prompt unconditionally, and when
the prompt returns a different account it overwrites the connected
account. -/
theorem pageConnect_reprompts_cex :
    pendingState.connectedAccount = some sampleAddr ∧
    ¬ ((pageConnect pendingState (Except.ok [otherAddr])).2 = false ∧
       (pageConnect pendingState (Except.ok [otherAddr])).1.connectedAccount =
         pendingState.connectedAccount) ∧
    (pageConnect pendingState (Except.ok [otherAddr])).2 = true ∧
    (pageConnect pendingState (Except.ok [otherAddr])).1.connectedAccount =
      some otherAddr :=
  ⟨rfl, fun h => absurd h.1 (by decide), rfl, by decide⟩

/-- C7 (amended): the composable `connect` is idempotent: whenever an
account is already connected it returns immediately, with the shared state
unchanged, the wallet prompt not invoked, and a plain return to the
caller.  The payment-page `connect`, by contrast, always invokes the
wallet prompt (see the counterexample). -/
theorem useAlgorandConnect_idempotent (s : AlgorandState) (a : Address)
    (env : ConnectEnv) (hconn : s.connectedAccount = some a) :
    useAlgorandConnect s env =
      { state := s, outcome := .ok (), prompted := false } := by
  simp [useAlgorandConnect, hconn]

/-- C7 witness: the amended claim at the connected composable state, with
a prompt environment that would yield a different account were it ever
invoked. -/
theorem useAlgorandConnect_idempotent_witness :
    connectedSt.connectedAccount = some sampleAddr ∧
    useAlgorandConnect connectedSt promptEnv =
      { state := connectedSt, outcome := .ok (), prompted := false } :=
  ⟨rfl, useAlgorandConnect_idempotent connectedSt sampleAddr promptEnv rfl⟩

/-! ## Claim C8 -/

/-- C8 counterexample: the claim states that a user-aborted connect is
never surfaced as an error to the caller.  The composable `connect` has no
cancellation handling at all: when the interactive prompt fails with the
cancellation message, the failure is rethrown to the caller like any
other. -/
theorem useAlgorandConnect_cancel_cex :
    (useAlgorandConnect disconnectedSt cancelEnv).outcome =
      Except.error "Connect cancelled" ∧
    ¬ ((useAlgorandConnect disconnectedSt cancelEnv).outcome = Except.ok ()) :=
  ⟨rfl, fun h => Except.noConfusion h⟩

/-- C8 (amended): in the payment-page `connect`, a failure carrying the
cancellation sentinel `Connect cancelled` is treated as a silent no-op —
the error indicator stays clear — while a failure carrying any other
message is surfaced through the error indicator (the message itself, or a
fallback text when the message is empty); the composable `connect`
instead rethrows every failure, the cancellation included, to its
caller. -/
theorem pageConnect_error_surfacing (s : PayState) (msg : String) :
    (pageConnect s (Except.error "Connect cancelled")).1.error = none ∧
    (msg ≠ "Connect cancelled" →
      (pageConnect s (Except.error msg)).1.error =
        some (orDefault msg "Failed to connect wallet")) := by
  constructor
  · simp [pageConnect]
  · intro hne
    simp [pageConnect, hne]

/-- C8 witness: the amended claim at the pending page state, for the
cancellation sentinel and for a distinct node failure message. -/
theorem pageConnect_error_surfacing_witness :
    ("node down" : String) ≠ "Connect cancelled" ∧
    (pageConnect pendingState (Except.error "Connect cancelled")).1.error = none ∧
    (pageConnect pendingState (Except.error "node down")).1.error =
      some (orDefault "node down" "Failed to connect wallet") :=
  ⟨by decide, (pageConnect_error_surfacing pendingState "node down").1,
   (pageConnect_error_surfacing pendingState "node down").2 (by decide)⟩

/-! ## Claim C9 -/

/-- C9 counterexample: the claim states that every periodic timer started
by a view is cancelled when the view is torn down.  The payment page
mounted on a pending checkout starts the per-second countdown interval,
registers no unmount hook and never clears it: after teardown the interval
is still active. -/
theorem paymentPage_countdown_leak_cex :
    (paymentPageTeardown (paymentPageOnMounted "pending" 1)).countdownInterval =
      some 1 ∧
    ¬ (paymentPageTeardown (paymentPageOnMounted "pending" 1) =
        { countdownInterval := none }) :=
  ⟨rfl, by decide⟩

/-- C9 (amended): the auto-refresh polling intervals are cancelled on view
teardown — the payment-stats unmount hook and the exchange-rate unmount
hook both leave no interval running, from any reachable state — but the
per-second countdown tick of the payment page is not: its teardown leaves
the countdown interval of a pending checkout running. -/
theorem view_timer_cancellation (s : StatsState) (r : RatesState) (intervalId : Nat) :
    (statsOnUnmounted s).refreshInterval = none ∧
    (ratesOnUnmounted r).refreshInterval = none ∧
    (paymentPageTeardown (paymentPageOnMounted "pending" intervalId)).countdownInterval =
      some intervalId := by
  refine ⟨rfl, ?_, rfl⟩
  cases hr : r.refreshInterval <;> simp [ratesOnUnmounted, hr]

/-! ## Claim C10 -/

/-- C10: calling `switchNetwork` with the currently active network
identifier is a complete no-op: the early-return guard fires and the whole
shared state — connected account, wallet session, node client, in-memory
network identifier and persisted selection — is returned unchanged, so a
same-network switch in particular does not disconnect the wallet. -/
theorem switchNetwork_same_id_noop (s : AlgorandState) :
    switchNetwork s s.networkId = s := by
  simp [switchNetwork]

end AlgorandCheckout
